import Mathlib

/-!
Shallow embedding of the kokoro-tts repository (files `tts_app/utils.py` and
`tts_app/views.py`) and proofs about it.

Modelling conventions:
* Python strings are Lean `String`s; `str.strip()` is `pyStrip` (Python strips
  the six ASCII whitespace characters; we model exactly those).
* Audio tensors are modelled by their sample counts (`Nat`): the code only ever
  uses `audio.shape[0]` and concatenation along dim 0, so a segment is fully
  described by its length in samples.
* Times (`current_time`, chunk starts/ends, durations) are exact rationals
  (`samples / 24000`).  The code uses Python floats; none of the properties
  proved here depend on rounding (in particular contiguity holds exactly even
  for floats, because `end` and the next `start` are the very same computed
  float value).
* The external Kokoro pipeline is modelled as an oracle mapping the index of a
  sentence (its position in the `enumerate(sentences)` loop) to the outcome of
  iterating `pipeline(sentence, voice=voice)`: the list of yielded audio
  segments followed by a flag saying whether iteration ended by raising.
* Filesystem and network effects (espeak data-path check, voice download,
  `sf.write`) are outside the embedding; `generate_speech` reports with a
  boolean whether the output file was written, and the environment preamble of
  the function (which either succeeds or fails the whole call before the
  synthesis loop) is not modelled: all claims below are about calls that reach
  the synthesis loop.
-/

namespace KokoroTTS

/-- The six ASCII whitespace characters recognised by Python's `str.strip()`
and by `\s` in an ASCII regex: space, tab, newline, carriage return,
vertical tab, form feed. -/
def isPySpace (c : Char) : Bool :=
  c = ' ' || c = '\t' || c = '\n' || c = '\r' || c = '\x0b' || c = '\x0c'

/-- Python regex `\w` (ASCII): alphanumeric or underscore. -/
def isWordChar (c : Char) : Bool :=
  c.isAlphanum || c = '_'

/-- The sentence-ending punctuation class `[.!?]` of the split pattern. -/
def isSentEnd (c : Char) : Bool :=
  c = '.' || c = '!' || c = '?'

/-- `str.strip()` on a list of characters: drop leading and trailing
whitespace. -/
def stripList (l : List Char) : List Char :=
  ((l.dropWhile isPySpace).reverse.dropWhile isPySpace).reverse

/-- Python `str.strip()`. -/
def pyStrip (s : String) : String :=
  String.mk (stripList s.toList)

/-- Does an optional preceding character satisfy a lookbehind class?
(`none` models the start of the string, where a lookbehind fails.) -/
def prevSat (p : Char → Bool) : Option Char → Bool
  | some c => p c
  | none => false

/-- Length of the match of the split pattern
`(?<=[.!?])\s+|(?<=\w)\s{2,}|\n+` at the current position, `none` if there is
no match there.  `prev` is the character just before the position (for the
lookbehinds), `rest` the remaining input.  Python's alternation tries the
branches left to right and each quantifier is greedy, so:
the first branch matches the whole following whitespace run (length ≥ 1) when
the previous character is in `[.!?]`; the second matches the whole whitespace
run (length ≥ 2) when the previous character is a word character; the third
matches the run of newlines (length ≥ 1). -/
def matchLen (prev : Option Char) (rest : List Char) : Option Nat :=
  let ws := (rest.takeWhile isPySpace).length
  let nl := (rest.takeWhile (fun c => c = '\n')).length
  if prevSat isSentEnd prev && decide (1 ≤ ws) then some ws
  else if prevSat isWordChar prev && decide (2 ≤ ws) then some ws
  else if decide (1 ≤ nl) then some nl
  else none

/-- The scanning loop of `re.split(pattern, text)` for a pattern with no
capturing groups: scan left to right; at each position try to match the
pattern; on a match emit the piece accumulated since the previous match and
resume after the match, otherwise consume one character.  `fuel` is an upper
bound on the number of steps (each step consumes at least one character, so
`rest.length` suffices); the `0` case is unreachable for such fuel. -/
def regexSplitAux : Nat → Option Char → List Char → List Char → List String
  | _, _, acc, [] => [String.mk acc.reverse]
  | 0, _, acc, rest => [String.mk (acc.reverse ++ rest)]
  | fuel + 1, prev, acc, c :: cs =>
    match matchLen prev (c :: cs) with
    | some n =>
      String.mk acc.reverse ::
        regexSplitAux fuel (some ((c :: cs).getD (n - 1) c)) [] ((c :: cs).drop n)
    | none => regexSplitAux fuel (some c) (c :: acc) cs

/-- `re.split(r'(?<=[.!?])\s+|(?<=\w)\s{2,}|\n+', text)`. -/
def regexSplit (text : String) : List String :=
  regexSplitAux text.toList.length none [] text.toList

/-- `split_sentences` (utils.py lines 11–16): split on the pattern, strip each
piece and keep the non-empty ones; if none remain, fall back to the single
stripped original text. -/
def split_sentences (text : String) : List String :=
  let sentences := ((regexSplit text).map pyStrip).filter (fun s => s ≠ "")
  if sentences ≠ [] then sentences else [pyStrip text]

/-- One entry of `chunk_timings` (utils.py lines 55–58). -/
structure ChunkTiming where
  start : ℚ
  «end» : ℚ
deriving DecidableEq

/-- Outcome of iterating `pipeline(sentence, voice=voice)` for one sentence:
the sample counts of the audio segments yielded (in order), and whether the
iteration ended by raising an exception (after those yields). -/
structure SentOutcome where
  yields : List Nat
  errored : Bool
deriving DecidableEq

/-- The inner `for _, _, audio in generator` loop body (utils.py lines 51–60)
applied to the segments yielded for one sentence, starting at time `t`:
produces the chunk timings appended for those segments and the updated
`current_time`. -/
def runSegments : ℚ → List Nat → List ChunkTiming × ℚ
  | t, [] => ([], t)
  | t, n :: ns =>
    let d : ℚ := (n : ℚ) / 24000
    let r := runSegments (t + d) ns
    (⟨t, t + d⟩ :: r.1, r.2)

/-- The `for i, sentence in enumerate(sentences)` loop (utils.py lines 45–63):
re-strip the sentence and skip it if empty; otherwise consult the pipeline
(`oracle i`), append its yielded segments and their timings; an exception from
the pipeline is logged and the loop continues with the next sentence (the
segments yielded before the exception stay appended).  Returns
(`audio_segments` as sample counts, `chunk_timings`, final `current_time`). -/
def synthLoop (oracle : Nat → SentOutcome) :
    List String → Nat → ℚ → List Nat × List ChunkTiming × ℚ
  | [], _, t => ([], [], t)
  | s :: rest, i, t =>
    if pyStrip s = "" then synthLoop oracle rest (i + 1) t
    else
      let o := oracle i
      let st := runSegments t o.yields
      let r := synthLoop oracle rest (i + 1) st.2
      (o.yields ++ r.1, st.1 ++ r.2.1, r.2.2)

/-- The triple returned by a successful `generate_speech` call (utils.py
line 79): the accumulated segments, the chunk timings, and the duration
re-read from the written file (`frames / samplerate`, i.e. total samples over
24000). -/
structure GenSuccess where
  audio_segments : List Nat
  chunk_timings : List ChunkTiming
  actual_duration : ℚ
deriving DecidableEq

/-- `generate_speech` (utils.py lines 18–83), synthesis core (lines 39–79):
split the text into sentences, run the per-sentence loop, then either write
the concatenated audio and return the triple, or — if no segment was
accumulated — raise `RuntimeError("No audio segments generated")` without
writing.  The boolean records whether the output file was written. -/
def generate_speech (text : String) (oracle : Nat → SentOutcome) :
    Except String GenSuccess × Bool :=
  let sentences := split_sentences text
  let r := synthLoop oracle sentences 0 0
  if r.1 ≠ [] then
    (Except.ok ⟨r.1, r.2.1, ((r.1.sum : ℚ) / 24000)⟩, true)
  else
    (Except.error "No audio segments generated", false)

/-- Number of non-empty sentences that were successfully synthesized: the
sentences that are non-empty after re-stripping and whose pipeline iteration
did not raise. -/
def countSuccessful (oracle : Nat → SentOutcome) : List String → Nat → Nat
  | [], _ => 0
  | s :: rest, i =>
    (if pyStrip s ≠ "" ∧ (oracle i).errored = false then 1 else 0) +
      countSuccessful oracle rest (i + 1)

/-- Total number of audio segments yielded by the pipeline across the
non-empty sentences of the list (empty-after-strip sentences are skipped and
contribute nothing). -/
def totalYields (oracle : Nat → SentOutcome) : List String → Nat → Nat
  | [], _ => 0
  | s :: rest, i =>
    (if pyStrip s = "" then 0 else (oracle i).yields.length) +
      totalYields oracle rest (i + 1)

/-- `chainFrom t l`: the timings in `l` are contiguous starting at `t` (each
entry starts where announced and the next entry starts at its end). -/
def chainFrom : ℚ → List ChunkTiming → Prop
  | _, [] => True
  | t, c :: rest => c.start = t ∧ chainFrom c.«end» rest

/-- End time of a contiguous run of timings started at `t`. -/
def chainEnd : ℚ → List ChunkTiming → ℚ
  | t, [] => t
  | _, c :: rest => chainEnd c.«end» rest

/-! ### Properties of stripping and of `split_sentences` -/

theorem dropWhile_self (p : Char → Bool) (l : List Char) :
    (l.dropWhile p).dropWhile p = l.dropWhile p := by
  induction l with
  | nil => rfl
  | cons c cs ih =>
    by_cases h : p c
    · simp [List.dropWhile_cons, h, ih]
    · simp [List.dropWhile_cons, h]

theorem length_dropWhile_le (p : Char → Bool) (l : List Char) :
    (l.dropWhile p).length ≤ l.length := by
  induction l with
  | nil => simp
  | cons c cs ih =>
    by_cases h : p c
    · rw [List.dropWhile_cons, if_pos h]
      exact Nat.le_trans ih (Nat.le_succ _)
    · rw [List.dropWhile_cons, if_neg h]

theorem dropWhile_eq_self_head (p : Char → Bool) (c : Char) (cs : List Char)
    (h : List.dropWhile p (c :: cs) = c :: cs) : p c = false := by
  by_cases hc : p c
  · rw [List.dropWhile_cons, if_pos hc] at h
    have hlen := length_dropWhile_le p cs
    rw [h] at hlen
    simp at hlen
  · simpa using hc

theorem stripList_fixed (m : List Char)
    (h1 : m.dropWhile isPySpace = m)
    (h2 : m.reverse.dropWhile isPySpace = m.reverse) : stripList m = m := by
  unfold stripList
  rw [h1, h2, List.reverse_reverse]

theorem stripList_idem (l : List Char) : stripList (stripList l) = stripList l := by
  have hdrop := dropWhile_self isPySpace
  have hstrip : stripList l
      = ((l.dropWhile isPySpace).reverse.dropWhile isPySpace).reverse := rfl
  have hinner :
      ((l.dropWhile isPySpace).reverse.dropWhile isPySpace).reverse.dropWhile isPySpace
        = ((l.dropWhile isPySpace).reverse.dropWhile isPySpace).reverse := by
    cases hrev : ((l.dropWhile isPySpace).reverse.dropWhile isPySpace).reverse with
    | nil => rfl
    | cons c cs =>
      have haa : (l.dropWhile isPySpace).dropWhile isPySpace = l.dropWhile isPySpace :=
        hdrop _
      have hsplit : (l.dropWhile isPySpace).reverse.takeWhile isPySpace
            ++ (l.dropWhile isPySpace).reverse.dropWhile isPySpace
          = (l.dropWhile isPySpace).reverse := List.takeWhile_append_dropWhile _ _
      have h1 := congrArg List.reverse hsplit
      rw [List.reverse_append, List.reverse_reverse] at h1
      -- h1 : (inner strip).reverse ++ (leading run).reverse = l.dropWhile isPySpace
      rw [hrev] at h1
      have hc : isPySpace c = false := by
        have h3 := haa
        conv_lhs at h3 => rw [← h1]
        conv_rhs at h3 => rw [← h1]
        simp only [List.cons_append] at h3
        exact dropWhile_eq_self_head _ _ _ h3
      simp [List.dropWhile_cons, hc]
  rw [hstrip]
  apply stripList_fixed
  · exact hinner
  · rw [List.reverse_reverse]
    exact hdrop _

theorem pyStrip_idem (s : String) : pyStrip (pyStrip s) = pyStrip s := by
  show String.mk (stripList (stripList s.toList)) = String.mk (stripList s.toList)
  rw [stripList_idem]

/-- C4 (counterexample): on the empty string — which is whitespace-only, so the
regex finds no match, every stripped piece is empty and the fallback branch
returns the stripped original — `split_sentences` returns `[""]`, whose sole
element is empty after trimming.  This refutes the claim that every returned
element is non-empty after trimming. -/
theorem C4_counterexample : split_sentences "" = [""] ∧ pyStrip "" = "" := by
  constructor <;> decide

/-- C4 (amended): for every input text, `split_sentences` returns a non-empty
sequence; and provided the input is non-empty after trimming, every element of
the returned sequence is non-empty after trimming.  (For whitespace-only
input the result is the single element `pyStrip text`, which is empty.) -/
theorem C4_amended (text : String) :
    split_sentences text ≠ [] ∧
    (pyStrip text ≠ "" → ∀ s ∈ split_sentences text, pyStrip s ≠ "") := by
  constructor
  · show (if (((regexSplit text).map pyStrip).filter (fun s => s ≠ "")) ≠ []
        then (((regexSplit text).map pyStrip).filter (fun s => s ≠ ""))
        else [pyStrip text]) ≠ []
    by_cases h : (((regexSplit text).map pyStrip).filter (fun s => s ≠ "")) ≠ []
    · rw [if_pos h]
      exact h
    · rw [if_neg h]
      exact List.cons_ne_nil _ _
  · intro hne s hs
    unfold split_sentences at hs
    by_cases h : (((regexSplit text).map pyStrip).filter (fun s => s ≠ "")) ≠ []
    · rw [if_pos h] at hs
      rw [List.mem_filter] at hs
      obtain ⟨hmem, hblank⟩ := hs
      obtain ⟨x, _, hx⟩ := List.mem_map.mp hmem
      subst hx
      rw [pyStrip_idem]
      simpa using hblank
    · rw [if_neg h] at hs
      simp only [List.mem_singleton] at hs
      subst hs
      rw [pyStrip_idem]
      exact hne

/-- C4 (witness): the amended theorem applied to the concrete input `"ab"`. -/
theorem C4_witness : split_sentences "ab" ≠ [] ∧ pyStrip "ab" ≠ "" :=
  ⟨(C4_amended "ab").1, (C4_amended "ab").2 (by decide) "ab" (by decide)⟩

/-! ### Properties of the synthesis loop -/

theorem synthLoop_cons_blank (oracle : Nat → SentOutcome) (s : String) (rest : List String)
    (i : Nat) (t : ℚ) (h : pyStrip s = "") :
    synthLoop oracle (s :: rest) i t = synthLoop oracle rest (i + 1) t := by
  simp [synthLoop, h]

theorem synthLoop_cons (oracle : Nat → SentOutcome) (s : String) (rest : List String)
    (i : Nat) (t : ℚ) (h : ¬ pyStrip s = "") :
    synthLoop oracle (s :: rest) i t =
      ((oracle i).yields
         ++ (synthLoop oracle rest (i + 1) (runSegments t (oracle i).yields).2).1,
       (runSegments t (oracle i).yields).1
         ++ (synthLoop oracle rest (i + 1) (runSegments t (oracle i).yields).2).2.1,
       (synthLoop oracle rest (i + 1) (runSegments t (oracle i).yields).2).2.2) := by
  simp [synthLoop, h]

theorem generate_speech_def (text : String) (oracle : Nat → SentOutcome) :
    generate_speech text oracle =
      if (synthLoop oracle (split_sentences text) 0 0).1 ≠ [] then
        (Except.ok ⟨(synthLoop oracle (split_sentences text) 0 0).1,
                    (synthLoop oracle (split_sentences text) 0 0).2.1,
                    (((synthLoop oracle (split_sentences text) 0 0).1.sum : ℚ) / 24000)⟩,
         true)
      else (Except.error "No audio segments generated", false) := rfl

theorem runSegments_length (ys : List Nat) : ∀ t : ℚ, (runSegments t ys).1.length = ys.length := by
  induction ys with
  | nil => intro t; rfl
  | cons n ns ih => intro t; simp [runSegments, ih]

theorem synthLoop_length (oracle : Nat → SentOutcome) (l : List String) :
    ∀ (i : Nat) (t : ℚ),
      (synthLoop oracle l i t).2.1.length = totalYields oracle l i ∧
      (synthLoop oracle l i t).1.length = totalYields oracle l i := by
  induction l with
  | nil => intro i t; exact ⟨rfl, rfl⟩
  | cons s rest ih =>
    intro i t
    by_cases h : pyStrip s = ""
    · simp [synthLoop, totalYields, h, ih (i + 1) t]
    · simp [synthLoop, totalYields, h, runSegments_length, (ih (i + 1) _).1, (ih (i + 1) _).2]

theorem generate_speech_ok (text : String) (oracle : Nat → SentOutcome) (r : GenSuccess)
    (h : (generate_speech text oracle).1 = Except.ok r) :
    r.audio_segments = (synthLoop oracle (split_sentences text) 0 0).1 ∧
    r.chunk_timings = (synthLoop oracle (split_sentences text) 0 0).2.1 := by
  unfold generate_speech at h
  by_cases hne : (synthLoop oracle (split_sentences text) 0 0).1 ≠ []
  · rw [if_pos hne] at h
    simp only [Except.ok.injEq] at h
    subst h
    exact ⟨rfl, rfl⟩
  · rw [if_neg hne] at h
    cases h

/-- Oracle for the C1 counterexample: every sentence succeeds and yields two
audio segments (of 100 and 200 samples). -/
def c1Oracle : Nat → SentOutcome := fun _ => ⟨[100, 200], false⟩

/-- The result of `generate_speech "hi" c1Oracle`. -/
def c1Result : GenSuccess :=
  ⟨[100, 200], [⟨0, 1/240⟩, ⟨1/240, 1/80⟩], 1/80⟩

/-- C1 (counterexample): the claim fails at text `"hi"` with a pipeline whose
generator yields two audio segments for the single sentence: `chunk_timings`
gets one entry per yielded segment (utils.py line 55 sits inside the
per-segment loop), so its length is 2 while the number of non-empty sentences
successfully synthesized is 1. -/
theorem C1_counterexample :
    (generate_speech "hi" c1Oracle).1 = Except.ok c1Result ∧
    c1Result.chunk_timings.length = 2 ∧
    countSuccessful c1Oracle (split_sentences "hi") 0 = 1 ∧
    c1Result.chunk_timings.length ≠ countSuccessful c1Oracle (split_sentences "hi") 0 := by
  have hsplit : split_sentences "hi" = ["hi"] := by decide
  have hstrip : pyStrip "hi" = "hi" := by decide
  refine ⟨?_, rfl, ?_, ?_⟩
  · simp [generate_speech, hsplit, synthLoop, hstrip, c1Oracle, runSegments, c1Result]
    norm_num
  · rw [hsplit]; decide
  · rw [hsplit]; decide

/-- C1 (amended): for every call to `generate_speech` that succeeds, the
length of the returned `chunk_timings` (and of `audio_segments`) equals the
total number of audio segments yielded by the pipeline across all non-empty
sentences — one entry per yielded segment; a sentence may yield several
segments, and segments yielded before a sentence's error are still counted. -/
theorem C1_amended (text : String) (oracle : Nat → SentOutcome) (r : GenSuccess)
    (h : (generate_speech text oracle).1 = Except.ok r) :
    r.chunk_timings.length = totalYields oracle (split_sentences text) 0 ∧
    r.audio_segments.length = totalYields oracle (split_sentences text) 0 := by
  obtain ⟨hseg, htim⟩ := generate_speech_ok text oracle r h
  rw [hseg, htim]
  exact ⟨(synthLoop_length oracle _ 0 0).1, (synthLoop_length oracle _ 0 0).2⟩

/-- C1 (witness): the amended theorem applied at text `"hi"` and `c1Oracle`. -/
theorem C1_witness :
    (generate_speech "hi" c1Oracle).1 = Except.ok c1Result ∧
    c1Result.chunk_timings.length = totalYields c1Oracle (split_sentences "hi") 0 := by
  have hsplit : split_sentences "hi" = ["hi"] := by decide
  have hstrip : pyStrip "hi" = "hi" := by decide
  have h : (generate_speech "hi" c1Oracle).1 = Except.ok c1Result := by
    simp [generate_speech, hsplit, synthLoop, hstrip, c1Oracle, runSegments, c1Result]
    norm_num
  exact ⟨h, (C1_amended "hi" c1Oracle c1Result h).1⟩

/-! ### C3: all sentences fail -/

theorem synthLoop_no_yields (oracle : Nat → SentOutcome)
    (hy : ∀ i, (oracle i).yields = []) (l : List String) :
    ∀ (i : Nat) (t : ℚ), synthLoop oracle l i t = ([], [], t) := by
  induction l with
  | nil => intro i t; rfl
  | cons s rest ih =>
    intro i t
    by_cases h : pyStrip s = ""
    · simp [synthLoop, h, ih (i + 1) t]
    · simp [synthLoop, h, hy i, runSegments, ih (i + 1) t]

/-- C3: if every sentence of the input fails synthesis — its pipeline
iteration yields no segment and raises — then `generate_speech` raises
`RuntimeError("No audio segments generated")` and does not write any file
(utils.py lines 66–72: the `sf.write` branch is only taken when
`audio_segments` is non-empty; the `else` branch raises before any write). -/
theorem C3_all_fail (text : String) (oracle : Nat → SentOutcome)
    (h : ∀ i, (oracle i).yields = [] ∧ (oracle i).errored = true) :
    generate_speech text oracle = (Except.error "No audio segments generated", false) := by
  rw [generate_speech_def, synthLoop_no_yields oracle (fun i => (h i).1) _ 0 0]
  simp

/-- Oracle for the C3 witness: every sentence raises without yielding. -/
def c3Oracle : Nat → SentOutcome := fun _ => ⟨[], true⟩

/-- C3 (witness): the theorem applied at text `"hi"` and `c3Oracle`. -/
theorem C3_witness :
    generate_speech "hi" c3Oracle = (Except.error "No audio segments generated", false) :=
  C3_all_fail "hi" c3Oracle (fun _ => ⟨rfl, rfl⟩)

/-! ### C7: contiguity of chunk timings -/

theorem runSegments_chain (ys : List Nat) : ∀ t : ℚ,
    chainFrom t (runSegments t ys).1 ∧
    (runSegments t ys).2 = chainEnd t (runSegments t ys).1 := by
  induction ys with
  | nil => intro t; exact ⟨trivial, rfl⟩
  | cons n ns ih =>
    intro t
    constructor
    · exact ⟨rfl, (ih (t + (n : ℚ) / 24000)).1⟩
    · show (runSegments (t + (n : ℚ) / 24000) ns).2 = _
      exact (ih (t + (n : ℚ) / 24000)).2

theorem chainFrom_append (xs : List ChunkTiming) : ∀ (ys : List ChunkTiming) (t : ℚ),
    chainFrom t xs → chainFrom (chainEnd t xs) ys → chainFrom t (xs ++ ys) := by
  induction xs with
  | nil => intro ys t _ h2; exact h2
  | cons c rest ih =>
    intro ys t h1 h2
    exact ⟨h1.1, ih ys c.«end» h1.2 h2⟩

theorem chainEnd_append (xs : List ChunkTiming) : ∀ (ys : List ChunkTiming) (t : ℚ),
    chainEnd t (xs ++ ys) = chainEnd (chainEnd t xs) ys := by
  induction xs with
  | nil => intro ys t; rfl
  | cons c rest ih => intro ys t; exact ih ys c.«end»

theorem synthLoop_chain (oracle : Nat → SentOutcome) (l : List String) :
    ∀ (i : Nat) (t : ℚ),
      chainFrom t (synthLoop oracle l i t).2.1 ∧
      (synthLoop oracle l i t).2.2 = chainEnd t (synthLoop oracle l i t).2.1 := by
  induction l with
  | nil => intro i t; exact ⟨trivial, rfl⟩
  | cons s rest ih =>
    intro i t
    by_cases h : pyStrip s = ""
    · simpa [synthLoop, h] using ih (i + 1) t
    · have hrs := runSegments_chain (oracle i).yields t
      have hih := ih (i + 1) (runSegments t (oracle i).yields).2
      rw [synthLoop_cons oracle s rest i t h]
      constructor
      · apply chainFrom_append _ _ _ hrs.1
        rw [← hrs.2]
        exact hih.1
      · rw [chainEnd_append, ← hrs.2]
        exact hih.2

theorem chainFrom_get_zero (l : List ChunkTiming) (t : ℚ) (hc : chainFrom t l)
    (h0 : 0 < l.length) : (l.get ⟨0, h0⟩).start = t := by
  cases l with
  | nil => cases h0
  | cons c rest => exact hc.1

theorem chainFrom_adjacent (l : List ChunkTiming) : ∀ (t : ℚ) (i : Nat)
    (h : i + 1 < l.length), chainFrom t l →
    (l.get ⟨i, Nat.lt_of_succ_lt h⟩).«end» = (l.get ⟨i + 1, h⟩).start := by
  induction l with
  | nil => intro t i h _; cases h
  | cons c rest ih =>
    intro t i h hc
    cases i with
    | zero =>
      show c.«end» = (rest.get ⟨0, _⟩).start
      exact (chainFrom_get_zero rest c.«end» hc.2 _).symm
    | succ j =>
      show (rest.get ⟨j, _⟩).«end» = (rest.get ⟨j + 1, _⟩).start
      exact ih c.«end» j (by simpa using h) hc.2

/-- C7: for every successful `generate_speech` call the returned
`chunk_timings` are contiguous: the first chunk starts at 0, and each entry's
`end` equals the next entry's `start` (utils.py lines 43–59: `current_time`
starts at 0.0 and each appended window is
`[current_time, current_time + chunk_duration]` before `current_time` is
advanced by exactly `chunk_duration`). -/
theorem C7_contiguous (text : String) (oracle : Nat → SentOutcome) (r : GenSuccess)
    (h : (generate_speech text oracle).1 = Except.ok r) :
    (∀ h0 : 0 < r.chunk_timings.length, (r.chunk_timings.get ⟨0, h0⟩).start = 0) ∧
    (∀ (i : Nat) (hi : i + 1 < r.chunk_timings.length),
      (r.chunk_timings.get ⟨i, Nat.lt_of_succ_lt hi⟩).«end» =
        (r.chunk_timings.get ⟨i + 1, hi⟩).start) := by
  have htim := (generate_speech_ok text oracle r h).2
  have hchain : chainFrom 0 r.chunk_timings := by
    rw [htim]
    exact (synthLoop_chain oracle (split_sentences text) 0 0).1
  exact ⟨fun h0 => chainFrom_get_zero _ _ hchain h0,
         fun i hi => chainFrom_adjacent _ _ i hi hchain⟩

/-- Oracle for the C7 witness: one segment of 240 samples per sentence. -/
def c7Oracle : Nat → SentOutcome := fun _ => ⟨[240], false⟩

/-- The result of `generate_speech "hi" c7Oracle`. -/
def c7Result : GenSuccess := ⟨[240], [⟨0, 1/100⟩], 1/100⟩

/-- C7 (witness): the theorem applied at text `"hi"` and `c7Oracle`. -/
theorem C7_witness :
    (generate_speech "hi" c7Oracle).1 = Except.ok c7Result ∧
    (c7Result.chunk_timings.get ⟨0, by decide⟩).start = 0 := by
  have hsplit : split_sentences "hi" = ["hi"] := by decide
  have hstrip : pyStrip "hi" = "hi" := by decide
  have h : (generate_speech "hi" c7Oracle).1 = Except.ok c7Result := by
    simp [generate_speech, hsplit, synthLoop, hstrip, c7Oracle, runSegments, c7Result]
    norm_num
  exact ⟨h, (C7_contiguous "hi" c7Oracle c7Result h).1 (by decide)⟩

/-! ### C2: a failing sentence is skipped and everything else is retained -/

theorem synthLoop_append (oracle : Nat → SentOutcome) (l1 : List String) :
    ∀ (l2 : List String) (i : Nat) (t : ℚ),
    synthLoop oracle (l1 ++ l2) i t =
      ((synthLoop oracle l1 i t).1
         ++ (synthLoop oracle l2 (i + l1.length) (synthLoop oracle l1 i t).2.2).1,
       (synthLoop oracle l1 i t).2.1
         ++ (synthLoop oracle l2 (i + l1.length) (synthLoop oracle l1 i t).2.2).2.1,
       (synthLoop oracle l2 (i + l1.length) (synthLoop oracle l1 i t).2.2).2.2) := by
  induction l1 with
  | nil => intro l2 i t; simp [synthLoop]
  | cons s l1' ih =>
    intro l2 i t
    have hidx : i + (s :: l1').length = i + 1 + l1'.length := by
      simp [List.length_cons]; omega
    by_cases h : pyStrip s = ""
    · rw [List.cons_append, synthLoop_cons_blank oracle s (l1' ++ l2) i t h,
        synthLoop_cons_blank oracle s l1' i t h, ih l2 (i + 1) t, hidx]
    · rw [List.cons_append, synthLoop_cons oracle s (l1' ++ l2) i t h,
        synthLoop_cons oracle s l1' i t h, hidx,
        ih l2 (i + 1) (runSegments t (oracle i).yields).2]
      simp [List.append_assoc]

/-- The state of the per-sentence loop just before reaching sentence `k`:
segments, timings and `current_time` accumulated over the first `k`
sentences. -/
def loopPre (oracle : Nat → SentOutcome) (text : String) (k : Nat) :
    List Nat × List ChunkTiming × ℚ :=
  synthLoop oracle ((split_sentences text).take k) 0 0

/-- The timings appended for the segments sentence `k` yields before its
error, and the `current_time` after them. -/
def failTims (oracle : Nat → SentOutcome) (text : String) (k : Nat) :
    List ChunkTiming × ℚ :=
  runSegments (loopPre oracle text k).2.2 (oracle k).yields

/-- The contribution of the sentences after sentence `k`. -/
def loopPost (oracle : Nat → SentOutcome) (text : String) (k : Nat) :
    List Nat × List ChunkTiming × ℚ :=
  synthLoop oracle ((split_sentences text).drop (k + 1)) (k + 1) (failTims oracle text k).2

/-- C2: if synthesizing sentence `k` raises an error, `generate_speech` skips
that sentence and continues with the remaining sentences: the accumulated
segments and timings decompose as (contribution of the sentences before `k`)
++ (the segments sentence `k` yielded before raising) ++ (contribution of the
sentences after `k`) — everything accumulated before and after the failing
sentence is retained, and a successful call returns exactly this
decomposition (utils.py lines 61–63: the handler logs and `continue`s). -/
theorem C2_skip (text : String) (oracle : Nat → SentOutcome) (k : Nat)
    (hk : k < (split_sentences text).length)
    (herr : (oracle k).errored = true)
    (hne : pyStrip ((split_sentences text).get ⟨k, hk⟩) ≠ "") :
    synthLoop oracle (split_sentences text) 0 0 =
      ((loopPre oracle text k).1
         ++ ((oracle k).yields ++ (loopPost oracle text k).1),
       (loopPre oracle text k).2.1
         ++ ((failTims oracle text k).1 ++ (loopPost oracle text k).2.1),
       (loopPost oracle text k).2.2) ∧
    (∀ r : GenSuccess, (generate_speech text oracle).1 = Except.ok r →
      r.audio_segments =
        (loopPre oracle text k).1 ++ ((oracle k).yields ++ (loopPost oracle text k).1) ∧
      r.chunk_timings =
        (loopPre oracle text k).2.1
          ++ ((failTims oracle text k).1 ++ (loopPost oracle text k).2.1)) := by
  have hlen : ((split_sentences text).take k).length = k := by
    rw [List.length_take]; omega
  have hdec : split_sentences text =
      (split_sentences text).take k
        ++ ((split_sentences text).get ⟨k, hk⟩ :: (split_sentences text).drop (k + 1)) := by
    conv_lhs => rw [← List.take_append_drop k (split_sentences text)]
    rw [List.drop_eq_get_cons hk]
  have main : synthLoop oracle (split_sentences text) 0 0 =
      ((loopPre oracle text k).1
         ++ ((oracle k).yields ++ (loopPost oracle text k).1),
       (loopPre oracle text k).2.1
         ++ ((failTims oracle text k).1 ++ (loopPost oracle text k).2.1),
       (loopPost oracle text k).2.2) := by
    conv_lhs => rw [hdec]
    rw [synthLoop_append oracle ((split_sentences text).take k) _ 0 0, hlen, Nat.zero_add]
    rw [synthLoop_cons oracle _ _ k _ hne]
    rfl
  refine ⟨main, fun r hr => ?_⟩
  obtain ⟨hseg, htim⟩ := generate_speech_ok text oracle r hr
  rw [hseg, htim, main]
  exact ⟨rfl, rfl⟩

/-- Oracle for the C2 witness: sentence 0 succeeds with one 240-sample
segment, every later sentence raises without yielding. -/
def c2Oracle : Nat → SentOutcome := fun i => if i = 0 then ⟨[240], false⟩ else ⟨[], true⟩

/-- The result of `generate_speech "Hello there. Bye." c2Oracle`. -/
def c2Result : GenSuccess := ⟨[240], [⟨0, 1/100⟩], 1/100⟩

/-- C2 (witness): the theorem applied at text `"Hello there. Bye."` (two
sentences) with `c2Oracle`, whose second sentence fails. -/
theorem C2_witness :
    (1 < (split_sentences "Hello there. Bye.").length) ∧
    (c2Oracle 1).errored = true ∧
    pyStrip ((split_sentences "Hello there. Bye.").get ⟨1, by decide⟩) ≠ "" ∧
    ((generate_speech "Hello there. Bye." c2Oracle).1 = Except.ok c2Result) ∧
    c2Result.audio_segments =
      (loopPre c2Oracle "Hello there. Bye." 1).1
        ++ ((c2Oracle 1).yields ++ (loopPost c2Oracle "Hello there. Bye." 1).1) ∧
    c2Result.chunk_timings =
      (loopPre c2Oracle "Hello there. Bye." 1).2.1
        ++ ((failTims c2Oracle "Hello there. Bye." 1).1
              ++ (loopPost c2Oracle "Hello there. Bye." 1).2.1) := by
  have hsplit : split_sentences "Hello there. Bye." = ["Hello there.", "Bye."] := by decide
  have h1 : pyStrip "Hello there." = "Hello there." := by decide
  have h2 : pyStrip "Bye." = "Bye." := by decide
  have hok : (generate_speech "Hello there. Bye." c2Oracle).1 = Except.ok c2Result := by
    simp [generate_speech, hsplit, synthLoop, h1, h2, c2Oracle, runSegments, c2Result]
    norm_num
  have happ := (C2_skip "Hello there. Bye." c2Oracle 1 (by decide) rfl (by decide)).2
      c2Result hok
  exact ⟨by decide, rfl, by decide, hok, happ.1, happ.2⟩

/-!
### Embedding of `tts_app/views.py`

`initialize_kokoro_pipeline` (lines 27–55) mutates the global
`kokoro_pipeline`; we model it as a state transformer on `Option P` (the
handle, `None` ↔ uninitialized) taking the outcome of the construction
attempt (`hf_hub_download` + `KPipeline(...)`) as an explicit argument.
It is named `init_kokoro_pipeline` here.

`generate` (lines 88–129) is modelled over a request record holding the
submitted form fields: `text[]` values, the single `text` value (absent ↔
`none`, since `request.POST.get("text")` returns `None` when the field is
missing), and likewise for voices.  Synthesis
(`generate_audio_for_sentence`, including its retry wrapper) is abstracted
as a function from the (stripped text, voice) pair to an `Except`; the
pipeline initialization at lines 109–110 and the output-path computation at
line 120 (a wall-clock-seeded hash) are environment effects outside the
claims below.  The handler returns the JSON response together with the list
of synthesis attempts made (the pairs passed to
`generate_audio_for_sentence`).

`cleanup_audio` (lines 132–144) is modelled over the listing of the audio
directory (`none` ↔ the directory does not exist).
-/

/-- `initialize_kokoro_pipeline`: no-op when the handle is set; otherwise
construct, and on failure reset the handle to `None` (line 54) and re-raise.
Returns the new handle state and the call outcome. -/
def init_kokoro_pipeline {P : Type} (state : Option P) (build : Except String P) :
    Option P × Except String Unit :=
  match state with
  | some p => (some p, Except.ok ())
  | none =>
    match build with
    | Except.ok p => (some p, Except.ok ())
    | Except.error e => (none, Except.error e)

/-- The message of the `AttributeError` raised by `None.strip()` when no text
field was submitted at all (Python: NoneType has no attribute named strip). -/
def noneStripMsg : String := "AttributeError: NoneType object has no attribute strip"

/-- JSON response of the `generate` view: either the 200 payload
`{"audio_urls": results}` or an error payload with its HTTP status. -/
inductive GenResponse (α : Type) where
  | ok (results : List α)
  | err (status : Nat) (msg : String)
deriving DecidableEq

/-- The form fields of a POST to `generate`: values of `text[]`, the single
`text` value if present, and likewise for voices. -/
structure GenRequest where
  method : String
  textList : List String
  textSingle : Option String
  voiceList : List String
  voiceSingle : Option String

/-- Line 96: `texts = request.POST.getlist("text[]") or [request.POST.get("text")]`.
The single `text` value may be absent, yielding `[None]`. -/
def extractTexts (req : GenRequest) : List (Option String) :=
  if req.textList ≠ [] then req.textList.map some else [req.textSingle]

/-- Line 97: `voices = request.POST.getlist("voice[]") or [request.POST.get("voice", "af_heart")]`. -/
def extractVoices (req : GenRequest) : List String :=
  if req.voiceList ≠ [] then req.voiceList else [req.voiceSingle.getD "af_heart"]

/-- Line 100: `any(text.strip() for text in texts)`, evaluated left to right
and short-circuiting; evaluating `None.strip()` raises `AttributeError`.  -/
def anyNonBlank : List (Option String) → Except String Bool
  | [] => Except.ok false
  | none :: _ => Except.error noneStripMsg
  | some s :: rest => if pyStrip s ≠ "" then Except.ok true else anyNonBlank rest

/-- Lines 104–106: when the voices list does not match the texts count `n`,
append `voices[-1] if voices else "af_heart"` repeated `n - len(voices)`
times (a non-positive repeat count appends nothing, as in Python). -/
def padVoices (voices : List String) (n : Nat) : List String :=
  if voices.length ≠ n then
    voices ++ List.replicate (n - voices.length) (voices.getLastD "af_heart")
  else voices

/-- Lines 116–123: iterate over `zip(texts, voices)`; strip each text and
skip blanks; call synthesis on the stripped text; any raised error aborts the
loop (and the whole request).  Returns the collected results, the synthesis
attempts made, and the error that aborted the loop if any.  A `None` text in
the loop would raise `AttributeError` at `text.strip()`. -/
def genLoop {α : Type} (synth : String → String → Except String α) :
    List (Option String × String) → List α × List (String × String) × Option String
  | [] => ([], [], none)
  | (none, _) :: _ => ([], [], some noneStripMsg)
  | (some t, v) :: rest =>
    if pyStrip t = "" then genLoop synth rest
    else
      match synth (pyStrip t) v with
      | Except.error e => ([], [(pyStrip t, v)], some e)
      | Except.ok res =>
        let w := genLoop synth rest
        (res :: w.1, (pyStrip t, v) :: w.2.1, w.2.2)

/-- The `generate` view (lines 88–129): reject non-POST with 400; extract
texts and voices; run the `any` check — an exception there is caught by the
outer handler and reported as a 500 error — and reject all-blank with
400 `"No text provided"`; pad the voices list; run the synthesis loop; an
error aborting the loop yields a 500 response, otherwise the 200 payload.
The second component is the list of synthesis attempts made. -/
def generate {α : Type} (synth : String → String → Except String α) (req : GenRequest) :
    GenResponse α × List (String × String) :=
  if req.method ≠ "POST" then (GenResponse.err 400 "Invalid request method", [])
  else
    match anyNonBlank (extractTexts req) with
    | Except.error e => (GenResponse.err 500 e, [])
    | Except.ok false => (GenResponse.err 400 "No text provided", [])
    | Except.ok true =>
      let voices := padVoices (extractVoices req) (extractTexts req).length
      let r := genLoop synth ((extractTexts req).zip voices)
      match r.2.2 with
      | some e => (GenResponse.err 500 e, r.2.1)
      | none => (GenResponse.ok r.1, r.2.1)

/-- Response body of `cleanup_audio`: HTTP status, the `"status"` field and
the `"message"` field of the JSON payload. -/
structure CleanupResponse where
  httpStatus : Nat
  status : String
  message : String
deriving DecidableEq

/-- The success response of `cleanup_audio` (line 141). -/
def cleanupSuccess : CleanupResponse := ⟨200, "success", "Audio folder cleaned up"⟩

/-- Python `str.endswith(suffix)`: the last `len(suffix)` characters equal
the suffix. -/
def pyEndsWith (s suffix : String) : Bool :=
  decide (s.toList.drop (s.toList.length - suffix.toList.length) = suffix.toList)

/-- `cleanup_audio` (lines 132–144) over the audio-directory listing
(`none` ↔ directory absent): delete every file ending in `".wav"`, then
report success.  Returns the new listing and the response. -/
def cleanup_audio (dir : Option (List String)) : Option (List String) × CleanupResponse :=
  match dir with
  | none => (none, cleanupSuccess)
  | some files => (some (files.filter (fun f => !(pyEndsWith f ".wav"))), cleanupSuccess)

/-! ### C5: requests with no non-empty text -/

theorem anyNonBlank_all_blank (l : List String) (h : ∀ t ∈ l, pyStrip t = "") :
    anyNonBlank (l.map some) = Except.ok false := by
  induction l with
  | nil => rfl
  | cons t ts ih =>
    have ht : pyStrip t = "" := h t (List.mem_cons_self t ts)
    show (if pyStrip t ≠ "" then Except.ok true else anyNonBlank (ts.map some))
        = Except.ok false
    rw [if_neg (by simp [ht])]
    exact ih (fun x hx => h x (List.mem_cons_of_mem t hx))

/-- Trivial synthesis function used in the C5 theorems. -/
def c5Synth : String → String → Except String Unit := fun _ _ => Except.ok ()

/-- The request of the C5 counterexample: a POST with no text field at all
(neither `text[]` entries nor a `text` value) and no voice fields. -/
def c5Req : GenRequest := ⟨"POST", [], none, [], none⟩

/-- C5 (counterexample): a POST with no submitted text at all — which
vacuously has no text non-empty after trimming — is answered with HTTP 500,
not a client-error 400: `texts` becomes `[None]` (views.py line 96), the
`any` check evaluates `None.strip()`, the raised `AttributeError` is caught
by the blanket `except` (line 127) and returned with status 500.  No
synthesis is attempted. -/
theorem C5_counterexample :
    generate c5Synth c5Req = (GenResponse.err 500 noneStripMsg, []) ∧
    (500 : Nat) ≠ 400 := by
  constructor
  · rfl
  · decide

/-- C5 (amended): for every POST in which every submitted text value trims to
empty, no synthesis is attempted and an error response is returned — with
status 400 ("No text provided") when at least one text value was actually
submitted, but with status 500 (the `AttributeError` from `None.strip()`)
when no text field was submitted at all. -/
theorem C5_amended {α : Type} (synth : String → String → Except String α)
    (req : GenRequest)
    (hm : req.method = "POST")
    (h1 : ∀ t ∈ req.textList, pyStrip t = "")
    (h2 : ∀ s, req.textSingle = some s → pyStrip s = "") :
    (req.textList = [] ∧ req.textSingle = none →
      generate synth req = (GenResponse.err 500 noneStripMsg, [])) ∧
    (req.textList ≠ [] ∨ req.textSingle ≠ none →
      generate synth req = (GenResponse.err 400 "No text provided", [])) := by
  have hmethod : ¬ (req.method ≠ "POST") := by simp [hm]
  constructor
  · rintro ⟨hTL, hTS⟩
    unfold generate
    rw [if_neg hmethod]
    have htexts : extractTexts req = [none] := by
      unfold extractTexts
      rw [if_neg (by simp [hTL]), hTS]
    rw [htexts]
    rfl
  · intro hsome
    unfold generate
    rw [if_neg hmethod]
    cases hTL : req.textList with
    | nil =>
      cases hTS : req.textSingle with
      | none =>
        exfalso
        rcases hsome with h | h
        · exact h hTL
        · exact h hTS
      | some s =>
        have htexts : extractTexts req = [some s] := by
          unfold extractTexts
          rw [if_neg (by simp [hTL]), hTS]
        rw [htexts]
        have hs : pyStrip s = "" := h2 s hTS
        show (match (if pyStrip s ≠ "" then Except.ok true else anyNonBlank [])
            with
          | Except.error e => (GenResponse.err 500 e, ([] : List (String × String)))
          | Except.ok false => (GenResponse.err 400 "No text provided", [])
          | Except.ok true => _) = _
        rw [if_neg (by simp [hs])]
        rfl
    | cons t ts =>
      have htexts : extractTexts req = (t :: ts).map some := by
        unfold extractTexts
        rw [if_pos (by simp [hTL]), hTL]
      rw [htexts, anyNonBlank_all_blank (t :: ts) (by rw [← hTL]; exact h1)]

/-- The request of the C5 witness: a POST whose only submitted text is a
single whitespace-only `text[]` entry. -/
def c5WReq : GenRequest := ⟨"POST", [" "], none, [], none⟩

/-- C5 (witness): the amended theorem applied to `c5WReq`. -/
theorem C5_witness :
    generate c5Synth c5WReq = (GenResponse.err 400 "No text provided", []) :=
  (C5_amended c5Synth c5WReq rfl (by decide)
    (fun s h => by cases h)).2 (Or.inl (by decide))

/-! ### C6: voice-list padding -/

/-- C6: whenever the supplied voices list is shorter than the number `n` of
texts, the padded voices list used for synthesis (views.py line 105) has
length exactly `n`, starts with the supplied voices in order, and all
trailing entries equal the last supplied voice — or the default voice
identifier `"af_heart"` when the supplied list is empty. -/
theorem C6_padding (voices : List String) (n : Nat) (h : voices.length < n) :
    (padVoices voices n).length = n ∧
    (padVoices voices n).take voices.length = voices ∧
    (padVoices voices n).drop voices.length =
      List.replicate (n - voices.length) (voices.getLastD "af_heart") := by
  unfold padVoices
  rw [if_pos (by omega : voices.length ≠ n)]
  refine ⟨?_, ?_, ?_⟩
  · rw [List.length_append, List.length_replicate]
    omega
  · exact List.take_left voices _
  · exact List.drop_left voices _

/-- C6 (witness): the theorem applied to one supplied voice and three texts. -/
theorem C6_witness :
    (padVoices ["af_bella"] 3).length = 3 ∧
    (padVoices ["af_bella"] 3).take (["af_bella"] : List String).length = ["af_bella"] ∧
    (padVoices ["af_bella"] 3).drop (["af_bella"] : List String).length =
      List.replicate (3 - (["af_bella"] : List String).length)
        ((["af_bella"] : List String).getLastD "af_heart") :=
  C6_padding ["af_bella"] 3 (by decide)

/-! ### C8: the pipeline cache state machine -/

/-- C8: the pipeline-cache initializer is a no-op when the handle is already
initialized; when construction fails from the uninitialized state it leaves
the handle uninitialized and propagates the error; and an initialized handle
is never torn down (ready is terminal), so the only possible transition is
uninitialized → ready (views.py lines 27–55). -/
theorem C8_cache (P : Type) :
    (∀ (p : P) (build : Except String P),
      init_kokoro_pipeline (some p) build = (some p, Except.ok ())) ∧
    (∀ e : String,
      init_kokoro_pipeline (none : Option P) (Except.error e) = (none, Except.error e)) ∧
    (∀ (s : Option P) (build : Except String P),
      s ≠ none → (init_kokoro_pipeline s build).1 = s) := by
  refine ⟨fun p build => rfl, fun e => rfl, ?_⟩
  intro s build hs
  cases s with
  | none => exact absurd rfl hs
  | some p => rfl

/-- C8 (witness): the theorem applied at `P := Nat` with an initialized
handle. -/
theorem C8_witness : (init_kokoro_pipeline (some 5) (Except.ok 7)).1 = some 5 :=
  (C8_cache Nat).2.2 (some 5) (Except.ok 7) (by simp)

/-! ### C9: the cleanup handler -/

/-- C9: `cleanup_audio` deletes every `.wav` file from the output directory
(the new listing is exactly the non-`.wav` files, so no `.wav` file
remains), is a no-op when the directory is absent, and reports the success
JSON response in both cases (views.py lines 132–144). -/
theorem C9_cleanup :
    cleanup_audio none = (none, cleanupSuccess) ∧
    (∀ files : List String,
      cleanup_audio (some files) =
        (some (files.filter (fun f => !(pyEndsWith f ".wav"))), cleanupSuccess)) ∧
    (∀ (files : List String) (f : String), f ∈ files → pyEndsWith f ".wav" = true →
      f ∉ files.filter (fun f => !(pyEndsWith f ".wav"))) := by
  refine ⟨rfl, fun files => rfl, ?_⟩
  intro files f _ hw hmem
  rw [List.mem_filter] at hmem
  rw [hw] at hmem
  simp at hmem

/-- C9 (witness): the theorem applied to a directory holding one `.wav` file
and one other file. -/
theorem C9_witness :
    cleanup_audio (some ["a.wav", "b.txt"]) =
      (some ((["a.wav", "b.txt"] : List String).filter (fun f => !(pyEndsWith f ".wav"))),
       cleanupSuccess) ∧
    "a.wav" ∉ (["a.wav", "b.txt"] : List String).filter (fun f => !(pyEndsWith f ".wav")) :=
  ⟨C9_cleanup.2.1 ["a.wav", "b.txt"],
   C9_cleanup.2.2 ["a.wav", "b.txt"] "a.wav" (by decide) (by decide)⟩

/-! ### C10: blank texts in a batch are skipped silently -/

/-- The processing of one `zip(texts, voices)` entry by the loop body (lines
117–122): a blank text produces no synthesis attempt, a non-blank text is
stripped and attempted with its voice. -/
def stripPair : Option String × String → Option (String × String)
  | (some t, v) => if pyStrip t = "" then none else some (pyStrip t, v)
  | (none, _) => none

/-- The synthesis attempts a request gives rise to: one `(stripped text,
voice)` pair per non-blank text, in input order. -/
def attemptedPairs (req : GenRequest) : List (String × String) :=
  (((extractTexts req).zip
      (padVoices (extractVoices req) (extractTexts req).length)).filterMap stripPair)

theorem anyNonBlank_exists (l : List String) (h : ∃ t ∈ l, pyStrip t ≠ "") :
    anyNonBlank (l.map some) = Except.ok true := by
  induction l with
  | nil => obtain ⟨t, ht, _⟩ := h; cases ht
  | cons t ts ih =>
    show (if pyStrip t ≠ "" then Except.ok true else anyNonBlank (ts.map some))
        = Except.ok true
    by_cases hb : pyStrip t ≠ ""
    · rw [if_pos hb]
    · rw [if_neg hb]
      apply ih
      obtain ⟨x, hx, hxb⟩ := h
      rcases List.mem_cons.mp hx with rfl | hx'
      · exact absurd hxb hb
      · exact ⟨x, hx', hxb⟩

theorem genLoop_cons_blank {α : Type} (synth : String → String → Except String α)
    (t : String) (v : String) (rest : List (Option String × String))
    (h : pyStrip t = "") :
    genLoop synth ((some t, v) :: rest) = genLoop synth rest := by
  simp [genLoop, h]

theorem genLoop_cons_nonblank {α : Type} (synth : String → String → Except String α)
    (t : String) (v : String) (rest : List (Option String × String))
    (h : ¬ pyStrip t = "") :
    genLoop synth ((some t, v) :: rest) =
      match synth (pyStrip t) v with
      | Except.error e => ([], [(pyStrip t, v)], some e)
      | Except.ok res =>
        (res :: (genLoop synth rest).1,
         (pyStrip t, v) :: (genLoop synth rest).2.1,
         (genLoop synth rest).2.2) := by
  simp [genLoop, h]

theorem genLoop_ok {α : Type} (g : String → String → α) :
    ∀ (pairs : List (Option String × String)), (∀ p ∈ pairs, p.1 ≠ none) →
    genLoop (fun t v => Except.ok (g t v)) pairs =
      ((pairs.filterMap stripPair).map (fun p => g p.1 p.2),
       pairs.filterMap stripPair, none) := by
  intro pairs
  induction pairs with
  | nil => intro _; rfl
  | cons p rest ih =>
    intro hnn
    obtain ⟨op, v⟩ := p
    cases op with
    | none => exact absurd rfl (hnn (none, v) (List.mem_cons_self _ _))
    | some t =>
      have hrest := ih (fun q hq => hnn q (List.mem_cons_of_mem _ hq))
      by_cases hb : pyStrip t = ""
      · rw [genLoop_cons_blank _ t v rest hb, hrest]
        simp [List.filterMap_cons, stripPair, hb]
      · rw [genLoop_cons_nonblank _ t v rest hb, hrest]
        simp [List.filterMap_cons, stripPair, hb]

theorem zip_map_some_fst_ne_none (l : List String) (vs : List String) :
    ∀ p ∈ (l.map some).zip vs, p.1 ≠ none := by
  intro p hp
  have h1 : p.1 ∈ l.map some := (List.of_mem_zip hp).1
  obtain ⟨x, _, hx⟩ := List.mem_map.mp h1
  rw [← hx]
  simp

theorem filterMap_stripPair_length (l : List String) :
    ∀ vs : List String, l.length ≤ vs.length →
    (((l.map some).zip vs).filterMap stripPair).length =
      (l.filter (fun t => pyStrip t ≠ "")).length := by
  induction l with
  | nil => intro vs _; rfl
  | cons t ts ih =>
    intro vs hlen
    cases vs with
    | nil => simp at hlen
    | cons v vs' =>
      have h' : ts.length ≤ vs'.length := by simpa using hlen
      by_cases hb : pyStrip t = ""
      · simp only [List.map_cons, List.zip_cons_cons, List.filterMap_cons, stripPair,
          if_pos hb, List.filter_cons]
        rw [ih vs' h']
        simp [hb]
      · simp only [List.map_cons, List.zip_cons_cons, List.filterMap_cons, stripPair,
          if_neg hb, List.filter_cons]
        rw [List.length_cons, ih vs' h']
        simp [hb]

theorem padVoices_length_ge (voices : List String) (n : Nat) :
    n ≤ (padVoices voices n).length := by
  unfold padVoices
  by_cases h : voices.length ≠ n
  · rw [if_pos h, List.length_append, List.length_replicate]
    omega
  · rw [if_neg h]
    omega

/-- C10: for every batch POST (`text[]` submitted) containing at least one
non-blank text, when synthesis succeeds on every attempted pair the response
is the 200 payload whose results list has exactly one entry per non-blank
text in input order (each entry the synthesis result of that stripped text
with its voice), the synthesis attempts are exactly the non-blank stripped
texts with their voices, and in particular blank texts trigger no synthesis
attempt and no response entry (views.py lines 116–123). -/
theorem C10_blank_skipped {α : Type} (g : String → String → α) (req : GenRequest)
    (hm : req.method = "POST") (hTL : req.textList ≠ [])
    (hAny : ∃ t ∈ req.textList, pyStrip t ≠ "") :
    generate (fun t v => Except.ok (g t v)) req =
      (GenResponse.ok ((attemptedPairs req).map (fun p => g p.1 p.2)),
       attemptedPairs req) ∧
    (attemptedPairs req).length =
      (req.textList.filter (fun t => pyStrip t ≠ "")).length := by
  have htexts : extractTexts req = req.textList.map some := by
    unfold extractTexts
    rw [if_pos (by simp [hTL])]
  have hnn : ∀ p ∈ (extractTexts req).zip
      (padVoices (extractVoices req) (extractTexts req).length), p.1 ≠ none := by
    rw [htexts]
    exact zip_map_some_fst_ne_none req.textList _
  have hgl := genLoop_ok g _ hnn
  constructor
  · unfold generate
    rw [if_neg (by simp [hm])]
    have hany' : anyNonBlank (extractTexts req) = Except.ok true := by
      rw [htexts]; exact anyNonBlank_exists req.textList hAny
    rw [hany']
    show (match (genLoop (fun t v => Except.ok (g t v))
        ((extractTexts req).zip
          (padVoices (extractVoices req) (extractTexts req).length))).2.2 with
      | some e => (GenResponse.err 500 e, _)
      | none => _) = _
    rw [hgl]
    rfl
  · unfold attemptedPairs
    rw [htexts]
    apply filterMap_stripPair_length
    have := padVoices_length_ge (extractVoices req) (extractTexts req).length
    rw [htexts] at this
    simpa using this

/-- The request of the C10 witness: two texts, one blank, and one voice. -/
def c10Req : GenRequest := ⟨"POST", ["hi", " "], none, ["v1"], none⟩

/-- Synthesis result payload used in the C10 witness. -/
def c10g : String → String → String := fun t v => t ++ v

/-- C10 (witness): the theorem applied to `c10Req`; its blank second text is
skipped, so there is exactly one attempt and one result. -/
theorem C10_witness :
    generate (fun t v => Except.ok (c10g t v)) c10Req =
      (GenResponse.ok ((attemptedPairs c10Req).map (fun p => c10g p.1 p.2)),
       attemptedPairs c10Req) ∧
    (attemptedPairs c10Req).length =
      (c10Req.textList.filter (fun t => pyStrip t ≠ "")).length ∧
    attemptedPairs c10Req = [("hi", "v1")] :=
  ⟨(C10_blank_skipped c10g c10Req rfl (by decide) ⟨"hi", by decide, by decide⟩).1,
   (C10_blank_skipped c10g c10Req rfl (by decide) ⟨"hi", by decide, by decide⟩).2,
   by decide⟩

end KokoroTTS
